import Mathlib

/-!
Verification of the Zendesk MCP server core logic.

Shallow embedding of `src/zendesk_mcp_server/zendesk_client.py`:
the ticket priority engine (`get_ticket_priority`), agent resolution and
ticket lookup (`get_tickets_by_agent`), the comment-posting guard
(`post_comment`) and the directory loader (`_load_name_to_ids_map`).

Timestamps are modelled as rational numbers of seconds since the epoch
(UTC); Python float arithmetic is modelled by exact rational arithmetic,
and Python `int()` by truncation toward zero. Python strings are modelled
by Lean `String` with ASCII-level case folding.
-/

namespace Zendesk

/-- Python `str.lower()` (ASCII range), applied characterwise. -/
def pyLower (s : String) : String := String.mk (s.data.map Char.toLower)

/-- Python `str.isdigit()`: true iff the string is nonempty and every
character is a digit. -/
def pyIsDigit (s : String) : Bool := !s.data.isEmpty && s.data.all Char.isDigit

/-- Python `int(s)` for a digit string: its base-10 value. -/
def digitsToNat (s : String) : ℕ :=
  s.data.foldl (fun acc c => acc * 10 + (c.toNat - 48)) 0

/-- Python `s.split()[0]`: the first whitespace-delimited token of `s`,
`none` when `s` has no token (then Python raises `IndexError`). -/
def pyFirstToken (s : String) : Option String :=
  match s.data.dropWhile Char.isWhitespace with
  | [] => none
  | c :: cs => some (String.mk ((c :: cs).takeWhile (fun a => !a.isWhitespace)))

/-- Python `dict.get` / `in` on a string-keyed dict, as first-match lookup
in an association list (keys are unique in the loaded directory). -/
def dictGet {β : Type} : List (String × β) → String → Option β
  | [], _ => none
  | (k, v) :: rest, key => if key = k then some v else dictGet rest key

/-- Python `int(x)` on a float, modelled on ℚ: truncation toward zero. -/
def truncQ (q : ℚ) : ℤ := if q < 0 then ⌈q⌉ else ⌊q⌋

/-- A ticket snapshot: the fields read by `get_ticket_priority` and
`get_tickets_by_agent` (zendesk_client.py lines 54-67). -/
structure Ticket where
  id : ℤ
  status : String
  tags : List String
  created_at : ℚ
  assignee_id : ℤ
deriving DecidableEq, Repr

/-- A comment record as used by the priority engine: only its creation
time matters (zendesk_client.py line 182). -/
structure CommentRec where
  created_at : ℚ
deriving DecidableEq, Repr

/-- `max(comments, key=lambda c: c.created_at).created_at`
(zendesk_client.py line 182): creation time of the latest comment,
`none` on an empty list (the truthiness test on line 181). -/
def latestCommentTime : List CommentRec → Option ℚ
  | [] => none
  | c :: cs => some (cs.foldl (fun m d => max m d.created_at) c.created_at)

/-- The `status_scores` table (zendesk_client.py lines 194-200). -/
def status_scores : List (String × ℚ) :=
  [("open", 100), ("new", 75), ("pending", 25),
   ("feature request review pending", 0), ("eng confirmed bug", 0)]

/-- `status_scores.get(ticket.status.lower(), 0)`
(zendesk_client.py line 202). -/
def statusComponent (status : String) : ℚ :=
  (dictGet status_scores (pyLower status)).getD 0

/-- Tag bonus (zendesk_client.py lines 167-168):
`if ticket.tags and 'sla_enterprise' in ticket.tags: priority_score += 100`. -/
def tagBonus (tags : List String) : ℚ :=
  if tags ≠ [] ∧ "sla_enterprise" ∈ tags then 100 else 0

/-- Age component (zendesk_client.py lines 177-178):
`ticket_age_hours = (now - ticket_created).total_seconds() / 3600;
age_score = (ticket_age_hours / 24) * 5`. -/
def ageScore (created_at now : ℚ) : ℚ :=
  ((now - created_at) / 3600 / 24) * 5

/-- Response-latency component (zendesk_client.py lines 181-191): zero
without comments, else `(hours_since_response / 24) * 10` for the
latest comment. -/
def responseScore (comments : List CommentRec) (now : ℚ) : ℚ :=
  match latestCommentTime comments with
  | none => 0
  | some t => ((now - t) / 3600 / 24) * 10

/-- The pre-truncation sum accumulated in `priority_score`
(zendesk_client.py lines 165-203). -/
def rawPriorityScore (t : Ticket) (comments : List CommentRec) (now : ℚ) : ℚ :=
  tagBonus t.tags + ageScore t.created_at now
    + responseScore comments now + statusComponent t.status

/-- `get_ticket_priority` (zendesk_client.py lines 149-205) as a pure
function of the fetched ticket, its comments and the current time:
`return int(priority_score)`. -/
def get_ticket_priority (t : Ticket) (comments : List CommentRec) (now : ℚ) : ℤ :=
  truncQ (rawPriorityScore t comments now)

/-- The errors agent resolution can raise inside `get_tickets_by_agent`:
the explicit "No agent found with name or ID: ..." (line 137) and the
`IndexError` from `agent_identifier.split()[0]` on a token-less string
(line 127). -/
inductive AgentError where
  | notFound (identifier : String)
  | indexError
deriving DecidableEq, Repr

/-- The first-name matching loop (zendesk_client.py lines 130-134):
`for full_name, user_id in self.nameToIdsMap.items(): if
full_name.split()[0].lower() == first_name: matching_agent_ids.append(...)`.
A key without a token raises `IndexError` when reached. -/
def matchingAgentIds : List (String × ℤ) → String → Except AgentError (List ℤ)
  | [], _ => .ok []
  | (full_name, user_id) :: rest, first_name =>
    match pyFirstToken full_name with
    | none => .error .indexError
    | some tok =>
      match matchingAgentIds rest first_name with
      | .error e => .error e
      | .ok ids => .ok (if pyLower tok = first_name then user_id :: ids else ids)

/-- Agent resolution in `get_tickets_by_agent`
(zendesk_client.py lines 112-137): digit strings parse directly, else
exact full-name lookup, else first-name matching, else "No agent found". -/
def resolveAgentIds (table : List (String × ℤ)) (ident : String) :
    Except AgentError (List ℤ) :=
  if pyIsDigit ident then .ok [(digitsToNat ident : ℤ)]
  else
    match dictGet table ident with
    | some uid => .ok [uid]
    | none =>
      match pyFirstToken ident with
      | none => .error .indexError
      | some tok =>
        match matchingAgentIds table (pyLower tok) with
        | .error e => .error e
        | .ok [] => .error (.notFound ident)
        | .ok (i :: is) => .ok (i :: is)

/-- The search issued per resolved assignee (zendesk_client.py lines
115, 123, 142): `assignee:{id} status:open status:pending
status:"Feature Request Review Pending" status:"ENG Confirmed Bug"`,
embedded structurally. -/
structure SearchQuery where
  assignee : ℤ
  statuses : List String
deriving DecidableEq, Repr

/-- The concrete query string of zendesk_client.py lines 115/123/142. -/
def agentSearchQuery (assignee_id : ℤ) : SearchQuery :=
  { assignee := assignee_id,
    statuses := ["open", "pending", "Feature Request Review Pending",
                 "ENG Confirmed Bug"] }

/-- The wrapped error of `get_tickets_by_agent` (lines 146-147):
`Failed to get tickets for agent {agent_identifier}: {cause}`. -/
inductive OpError where
  | failedGetTickets (identifier : String) (cause : AgentError)
deriving DecidableEq, Repr

/-- `get_tickets_by_agent` (zendesk_client.py lines 106-147) over an
abstract store: returns the `{'id': ..., 'status': ...}` projections and
the list of search queries issued, in order. -/
def get_tickets_by_agent (table : List (String × ℤ))
    (search : SearchQuery → List Ticket) (ident : String) :
    Except OpError (List (ℤ × String)) × List SearchQuery :=
  match resolveAgentIds table ident with
  | .error e => (.error (.failedGetTickets ident e), [])
  | .ok ids =>
    (.ok (((ids.map (fun i => search (agentSearchQuery i))).flatten).map
        fun t => (t.id, t.status)),
     ids.map agentSearchQuery)

/-- Modelled from the spec: the vendor `TicketStore.search` semantics of
§6 — the query grammar `assignee:<id> status:... status:...` filters to
tickets assigned to the given id whose status is one of the listed
statuses (OR across `status:` clauses, AND with `assignee:`). The vendor
client is external and not part of the repository source. -/
def specSearchEval (store : List Ticket) (q : SearchQuery) : List Ticket :=
  store.filter (fun t => t.assignee_id == q.assignee && q.statuses.contains t.status)

/-- The errors `post_comment` can raise (zendesk_client.py lines 92-104):
the confirmation guard and the wrapped store failure. -/
inductive PostError where
  | permissionDenied
  | failedPost (ticket_id : ℤ) (cause : String)
deriving DecidableEq, Repr

/-- External store calls made by `post_comment`, in order. -/
inductive StoreCall where
  | fetchTicket (id : ℤ)
  | updateTicket (id : ℤ)
deriving DecidableEq, Repr

/-- `post_comment` (zendesk_client.py lines 88-104) over an abstract
store: the guard fires before any store call; on success the body text
is returned. The second component is the trace of store calls made. -/
def post_comment (fetch : ℤ → Except String Ticket)
    (update : ℤ → String → Bool → Except String Unit)
    (ticket_id : ℤ) (comment : String) (pub : Bool) (confirm_post : Bool) :
    Except PostError String × List StoreCall :=
  if !confirm_post then (.error .permissionDenied, [])
  else
    match fetch ticket_id with
    | .error e => (.error (.failedPost ticket_id e), [.fetchTicket ticket_id])
    | .ok _ =>
      match update ticket_id comment pub with
      | .error e => (.error (.failedPost ticket_id e),
                     [.fetchTicket ticket_id, .updateTicket ticket_id])
      | .ok _ => (.ok comment, [.fetchTicket ticket_id, .updateTicket ticket_id])

/-- `_load_name_to_ids_map` (zendesk_client.py lines 22-47): reading and
parsing `nameToIdsMap.js` is abstracted as an `Except`-valued resource;
any failure is caught and yields the empty mapping (the function itself
never fails). -/
def load_name_to_ids_map (resource : Except String (List (String × ℤ))) :
    List (String × ℤ) :=
  match resource with
  | .ok pairs => pairs
  | .error _ => []

/-- Refinement model, from the spec's words (§4.1 step 3): "collect the
IDs of every full-name entry whose own first token lowercases to the
same value", in table order. -/
def specFirstNameMatches (table : List (String × ℤ)) (fn : String) : List ℤ :=
  table.filterMap (fun p =>
    match pyFirstToken p.1 with
    | none => none
    | some tok => if pyLower tok = fn then some p.2 else none)

/-! ## Helper lemmas -/

theorem truncQ_mono {a b : ℚ} (h : a ≤ b) : truncQ a ≤ truncQ b := by
  unfold truncQ
  split
  · split
    · exact Int.ceil_le_ceil h
    · rename_i ha hb
      have h0 : ⌈a⌉ ≤ 0 := Int.ceil_le.mpr (by exact_mod_cast le_of_lt ha)
      have h1 : 0 ≤ ⌊b⌋ := Int.floor_nonneg.mpr (le_of_not_lt hb)
      omega
  · split
    · rename_i ha hb
      exact absurd (lt_of_le_of_lt h hb) ha
    · exact Int.floor_le_floor h

theorem truncQ_add_100 {a : ℚ} (h : 0 ≤ a) : truncQ (a + 100) = truncQ a + 100 := by
  unfold truncQ
  rw [if_neg (by linarith), if_neg (by linarith)]
  rw [show (100 : ℚ) = ((100 : ℤ) : ℚ) by norm_num, Int.floor_add_int]

theorem statusComponent_nonneg (s : String) : 0 ≤ statusComponent s := by
  simp only [statusComponent, status_scores, dictGet]
  repeat' split
  all_goals norm_num

theorem foldl_max_le {cs : List CommentRec} {init now : ℚ} (h0 : init ≤ now)
    (h : ∀ c ∈ cs, c.created_at ≤ now) :
    cs.foldl (fun m d => max m d.created_at) init ≤ now := by
  induction cs generalizing init with
  | nil => exact h0
  | cons c rest ih =>
    exact ih (max_le h0 (h c (List.mem_cons_self c rest)))
      (fun d hd => h d (List.mem_cons_of_mem c hd))

theorem latestCommentTime_le {cs : List CommentRec} {now m : ℚ}
    (hm : latestCommentTime cs = some m)
    (h : ∀ c ∈ cs, c.created_at ≤ now) : m ≤ now := by
  cases cs with
  | nil => simp [latestCommentTime] at hm
  | cons c rest =>
    simp only [latestCommentTime, Option.some.injEq] at hm
    subst hm
    exact foldl_max_le (h c (List.mem_cons_self c rest))
      (fun d hd => h d (List.mem_cons_of_mem c hd))

theorem responseScore_nonneg {cs : List CommentRec} {now : ℚ}
    (h : ∀ c ∈ cs, c.created_at ≤ now) : 0 ≤ responseScore cs now := by
  unfold responseScore
  cases hm : latestCommentTime cs with
  | none => norm_num
  | some m =>
    have := latestCommentTime_le hm h
    have h2 : (0:ℚ) ≤ now - m := by linarith
    positivity

theorem rawPriorityScore_nonneg {t : Ticket} {cs : List CommentRec} {now : ℚ}
    (hc : t.created_at ≤ now) (hcs : ∀ c ∈ cs, c.created_at ≤ now)
    (htag : 0 ≤ tagBonus t.tags) :
    0 ≤ rawPriorityScore t cs now := by
  unfold rawPriorityScore
  have h1 : 0 ≤ ageScore t.created_at now := by
    unfold ageScore
    have : (0:ℚ) ≤ now - t.created_at := by linarith
    positivity
  have h2 := responseScore_nonneg hcs
  have h3 := statusComponent_nonneg t.status
  linarith

theorem tagBonus_nonneg (tags : List String) : 0 ≤ tagBonus tags := by
  unfold tagBonus
  split <;> norm_num

theorem resolveAgentIds_digit (table : List (String × ℤ)) (ident : String)
    (h : pyIsDigit ident = true) :
    resolveAgentIds table ident = .ok [(digitsToNat ident : ℤ)] := by
  unfold resolveAgentIds
  rw [if_pos h]

/-! ## Claim theorems -/

/-- Claim C1: a ticket created exactly 24 hours before `now`, status
"open", no tags, with one comment created exactly 24 hours before `now`,
gets priority exactly 115 = 0 (tag) + 5 (age) + 10 (response) +
100 (status), the sum truncated to an integer. -/
theorem priority_example_24h (now : ℚ) (i a : ℤ) :
    get_ticket_priority ⟨i, "open", [], now - 86400, a⟩ [⟨now - 86400⟩] now = 115 := by
  have hraw : rawPriorityScore ⟨i, "open", [], now - 86400, a⟩ [⟨now - 86400⟩] now = 115 := by
    unfold rawPriorityScore tagBonus ageScore responseScore latestCommentTime
      statusComponent status_scores
    have hlow : pyLower "open" = "open" := by decide
    simp only [hlow, dictGet]
    norm_num
  unfold get_ticket_priority
  rw [hraw]
  unfold truncQ
  rw [if_neg (by norm_num)]
  norm_num

/-- Claim C2: the status component lowercases the ticket's status and
looks it up in the table open→100, new→75, pending→25, "feature request
review pending"→0, "eng confirmed bug"→0; any status whose lowercase
form is not in the table contributes 0, "Open" in any letter case
contributes 100 and "Pending" contributes 25; the priority score is the
truncated sum containing this component. -/
theorem status_component_spec :
    (∀ s : String, pyLower s = "open" → statusComponent s = 100)
    ∧ (∀ s : String, pyLower s = "new" → statusComponent s = 75)
    ∧ (∀ s : String, pyLower s = "pending" → statusComponent s = 25)
    ∧ (∀ s : String, pyLower s = "feature request review pending" →
        statusComponent s = 0)
    ∧ (∀ s : String, pyLower s = "eng confirmed bug" → statusComponent s = 0)
    ∧ (∀ s : String,
        pyLower s ≠ "open" → pyLower s ≠ "new" → pyLower s ≠ "pending" →
        pyLower s ≠ "feature request review pending" →
        pyLower s ≠ "eng confirmed bug" → statusComponent s = 0)
    ∧ (∀ (t : Ticket) (cs : List CommentRec) (now : ℚ),
        get_ticket_priority t cs now
          = truncQ (tagBonus t.tags + ageScore t.created_at now
              + responseScore cs now + statusComponent t.status)) := by
  refine ⟨?_, ?_, ?_, ?_, ?_, ?_, fun t cs now => rfl⟩
  all_goals
    intro s
    simp only [statusComponent, status_scores, dictGet]
  · intro h; rw [if_pos h]; norm_num
  · intro h
    rw [if_neg (by simp [h]), if_pos h]; norm_num
  · intro h
    rw [if_neg (by simp [h]), if_neg (by simp [h]), if_pos h]; norm_num
  · intro h
    rw [if_neg (by simp [h]), if_neg (by simp [h]), if_neg (by simp [h]),
      if_pos h]; norm_num
  · intro h
    rw [if_neg (by simp [h]), if_neg (by simp [h]), if_neg (by simp [h]),
      if_neg (by simp [h]), if_pos h]; norm_num
  · intro h1 h2 h3 h4 h5
    rw [if_neg h1, if_neg h2, if_neg h3, if_neg h4, if_neg h5]
    norm_num

/-- Witness for C2 at concrete statuses. -/
theorem status_component_spec_witness :
    statusComponent "Open" = 100 ∧ statusComponent "oPeN" = 100
    ∧ statusComponent "New" = 75 ∧ statusComponent "Pending" = 25
    ∧ statusComponent "solved" = 0 :=
  ⟨status_component_spec.1 "Open" (by decide),
   status_component_spec.1 "oPeN" (by decide),
   status_component_spec.2.1 "New" (by decide),
   status_component_spec.2.2.1 "Pending" (by decide),
   status_component_spec.2.2.2.2.2.1 "solved" (by decide) (by decide)
     (by decide) (by decide) (by decide)⟩

/-- Claim C3: with all other inputs fixed, the priority score is
monotonically non-decreasing in ticket age (an older `created_at` never
lowers the score), and, when comments exist, monotonically
non-decreasing in hours since the latest comment (an older latest
comment never lowers the score). -/
theorem priority_monotone (t : Ticket) (cs cs1 cs2 : List CommentRec)
    (now c1 c2 m1 m2 : ℚ) (hage : c2 ≤ c1)
    (h1 : latestCommentTime cs1 = some m1)
    (h2 : latestCommentTime cs2 = some m2) (hm : m2 ≤ m1) :
    get_ticket_priority { t with created_at := c1 } cs now
        ≤ get_ticket_priority { t with created_at := c2 } cs now
    ∧ get_ticket_priority t cs1 now ≤ get_ticket_priority t cs2 now := by
  constructor
  · apply truncQ_mono
    unfold rawPriorityScore ageScore
    simp only
    have : ((now - c1) / 3600 / 24) * 5 ≤ ((now - c2) / 3600 / 24) * 5 := by
      linarith
    linarith
  · apply truncQ_mono
    unfold rawPriorityScore responseScore
    rw [h1, h2]
    have : ((now - m1) / 3600 / 24) * 10 ≤ ((now - m2) / 3600 / 24) * 10 := by
      linarith
    linarith

/-- Witness for C3 at a concrete instantiation. -/
theorem priority_monotone_witness :
    get_ticket_priority ⟨1, "open", [], 0, 0⟩ [] 0
        ≤ get_ticket_priority ⟨1, "open", [], 0, 0⟩ [] 0
    ∧ get_ticket_priority ⟨1, "open", [], 0, 0⟩ [⟨0⟩] 0
        ≤ get_ticket_priority ⟨1, "open", [], 0, 0⟩ [⟨0⟩] 0 :=
  priority_monotone ⟨1, "open", [], 0, 0⟩ [] [⟨0⟩] [⟨0⟩] 0 0 0 0 0
    (le_refl 0) rfl rfl (le_refl 0)

/-- Counterexample to claim C4 as stated: a ticket created 12 hours in
the future (created_at = 43200, now = 0) with unrecognized status and no
comments has pre-truncation score -2.5, truncated toward zero to -2;
with the `sla_enterprise` tag the sum 97.5 truncates to 97, a difference
of 99, not 100. -/
theorem tag_bonus_cex :
    ¬ (get_ticket_priority ⟨1, "solved", ["sla_enterprise"], 43200, 0⟩ [] 0
        = get_ticket_priority ⟨1, "solved", [], 43200, 0⟩ [] 0 + 100) := by
  have hplow : pyLower "solved" = "solved" := by decide
  have hs : statusComponent "solved" = 0 := by
    simp only [statusComponent, status_scores, dictGet, hplow]
    rw [if_neg (by decide), if_neg (by decide), if_neg (by decide),
      if_neg (by decide), if_neg (by decide)]
    rfl
  have h1 : get_ticket_priority ⟨1, "solved", ["sla_enterprise"], 43200, 0⟩ [] 0 = 97 := by
    have hraw : rawPriorityScore ⟨1, "solved", ["sla_enterprise"], 43200, 0⟩ [] 0
        = 195 / 2 := by
      unfold rawPriorityScore tagBonus ageScore responseScore latestCommentTime
      rw [hs]
      norm_num
    unfold get_ticket_priority
    rw [hraw]
    unfold truncQ
    rw [if_neg (by norm_num)]
    norm_num
  have h2 : get_ticket_priority ⟨1, "solved", [], 43200, 0⟩ [] 0 = -2 := by
    have hraw : rawPriorityScore ⟨1, "solved", [], 43200, 0⟩ [] 0 = -5 / 2 := by
      unfold rawPriorityScore tagBonus ageScore responseScore latestCommentTime
      rw [hs]
      norm_num
    unfold get_ticket_priority
    rw [hraw]
    unfold truncQ
    rw [if_pos (by norm_num), Int.ceil_eq_iff]
    norm_num
  rw [h1, h2]
  decide

/-- Claim C4 as amended: for tickets identical except that one tag set
contains `sla_enterprise` and the other does not, and the same comments
and `now`, the tagged ticket scores exactly 100 more than the untagged
one, provided the untagged ticket's pre-truncation sum is nonnegative —
in particular whenever the ticket is not created in the future and no
comment is dated in the future. (As stated, the claim fails for
future-dated tickets: truncation toward zero makes the gap 99 when the
untagged sum is negative and fractional, see `tag_bonus_cex`.) -/
theorem tag_bonus_amended (t : Ticket) (tags1 : List String)
    (cs : List CommentRec) (now : ℚ)
    (h1 : "sla_enterprise" ∈ tags1) (h0 : "sla_enterprise" ∉ t.tags)
    (hc : t.created_at ≤ now) (hcs : ∀ c ∈ cs, c.created_at ≤ now) :
    get_ticket_priority { t with tags := tags1 } cs now
        = get_ticket_priority t cs now + 100 := by
  have htag1 : tagBonus tags1 = 100 := by
    unfold tagBonus
    rw [if_pos ⟨by rintro rfl; exact (List.not_mem_nil _ h1), h1⟩]
  have htag0 : tagBonus t.tags = 0 := by
    unfold tagBonus
    rw [if_neg (by rintro ⟨-, hmem⟩; exact h0 hmem)]
  have hraw : rawPriorityScore { t with tags := tags1 } cs now
      = rawPriorityScore t cs now + 100 := by
    unfold rawPriorityScore
    simp only [htag1, htag0]
    ring
  have hnn : 0 ≤ rawPriorityScore t cs now :=
    rawPriorityScore_nonneg hc hcs (by rw [htag0])
  unfold get_ticket_priority
  rw [hraw, truncQ_add_100 hnn]

/-- Witness for the amended C4 at a concrete instantiation. -/
theorem tag_bonus_amended_witness :
    get_ticket_priority ⟨1, "solved", ["sla_enterprise"], 0, 0⟩ [] 0
        = get_ticket_priority ⟨1, "solved", [], 0, 0⟩ [] 0 + 100 :=
  tag_bonus_amended ⟨1, "solved", [], 0, 0⟩ ["sla_enterprise"] [] 0
    (by decide) (by decide) (le_refl 0) (by simp)

theorem matchingAgentIds_eq_spec (table : List (String × ℤ)) (fn : String)
    (hwf : ∀ p ∈ table, (pyFirstToken p.1).isSome = true) :
    matchingAgentIds table fn = .ok (specFirstNameMatches table fn) := by
  induction table with
  | nil => rfl
  | cons p rest ih =>
    obtain ⟨k, v⟩ := p
    have hk := hwf ⟨k, v⟩ (List.mem_cons_self _ _)
    cases htok : pyFirstToken k with
    | none => rw [htok] at hk; simp at hk
    | some tok =>
      have hrest := ih (fun q hq => hwf q (List.mem_cons_of_mem _ hq))
      simp only [matchingAgentIds, specFirstNameMatches, htok, hrest,
        List.filterMap_cons]
      split
      · rfl
      · rfl

/-- Claim C5: a digit-string identifier resolves to the singleton of its
integer value, for every table (no table consultation, no existence
check). -/
theorem resolve_digit_identifier (table : List (String × ℤ)) (ident : String)
    (h : pyIsDigit ident = true) :
    resolveAgentIds table ident = .ok [(digitsToNat ident : ℤ)] :=
  resolveAgentIds_digit table ident h

/-- Witness for C5: "42" resolves to {42} even though the table maps the
string "42" to a different ID. -/
theorem resolve_digit_identifier_witness :
    resolveAgentIds [("42", 7)] "42" = .ok [42] := by
  rw [resolve_digit_identifier [("42", 7)] "42" (by decide)]
  rfl

/-- Claim C6: a non-digit identifier that exactly (case-sensitively)
equals a full-name key resolves to the singleton of that key's ID, even
when another entry shares the first name; otherwise resolution returns
the IDs of every entry whose lowercased first whitespace-delimited token
equals the identifier's lowercased first token, and fails with
NotFound carrying the original identifier when that set is empty. -/
theorem resolve_name_identifier (table : List (String × ℤ)) (ident : String)
    (hd : pyIsDigit ident = false)
    (hwf : ∀ p ∈ table, (pyFirstToken p.1).isSome = true) :
    (∀ uid, dictGet table ident = some uid →
        resolveAgentIds table ident = .ok [uid])
    ∧ (dictGet table ident = none →
        ∀ tok, pyFirstToken ident = some tok →
          (specFirstNameMatches table (pyLower tok) ≠ [] →
              resolveAgentIds table ident
                = .ok (specFirstNameMatches table (pyLower tok)))
          ∧ (specFirstNameMatches table (pyLower tok) = [] →
              resolveAgentIds table ident = .error (.notFound ident))) := by
  constructor
  · intro uid hlk
    unfold resolveAgentIds
    rw [if_neg (by simp [hd]), hlk]
  · intro hlk tok htok
    constructor
    · intro hne
      unfold resolveAgentIds
      rw [if_neg (by simp [hd])]
      simp only [hlk, htok, matchingAgentIds_eq_spec table (pyLower tok) hwf]
      cases hs : specFirstNameMatches table (pyLower tok) with
      | nil => exact absurd hs hne
      | cons i is => simp
    · intro hempty
      unfold resolveAgentIds
      rw [if_neg (by simp [hd])]
      simp only [hlk, htok, matchingAgentIds_eq_spec table (pyLower tok) hwf,
        hempty]

/-- Witness for C6: exact full-name match beats a shared first name;
a bare first name collects both matching entries. -/
theorem resolve_name_identifier_witness :
    resolveAgentIds [("Alice Smith", 1), ("Alice Jones", 2)] "Alice Smith"
        = .ok [1]
    ∧ resolveAgentIds [("Alice Smith", 1), ("Alice Jones", 2)] "Alice"
        = .ok [1, 2] := by
  constructor
  · exact (resolve_name_identifier [("Alice Smith", 1), ("Alice Jones", 2)]
      "Alice Smith" (by decide) (by decide)).1 1 (by decide)
  · have h := ((resolve_name_identifier [("Alice Smith", 1), ("Alice Jones", 2)]
      "Alice" (by decide) (by decide)).2 (by decide) "Alice" (by decide)).1
      (by decide)
    rw [h]
    rfl

/-- Claim C7: for the numeric identifier "42", `get_tickets_by_agent`
issues exactly one search query, restricted to assignee 42 and the
status set {open, pending, "Feature Request Review Pending",
"ENG Confirmed Bug"}; under the spec's search semantics a ticket with
status "new" never appears in that query's results. -/
theorem tickets_by_agent_42 (table : List (String × ℤ)) (store : List Ticket) :
    (get_tickets_by_agent table (specSearchEval store) "42").2
        = [agentSearchQuery 42]
    ∧ (agentSearchQuery 42).statuses
        = ["open", "pending", "Feature Request Review Pending",
           "ENG Confirmed Bug"]
    ∧ ∀ t ∈ specSearchEval store (agentSearchQuery 42), t.status ≠ "new" := by
  have hres : resolveAgentIds table "42" = .ok [42] :=
    resolveAgentIds_digit table "42" (by decide)
  refine ⟨?_, rfl, ?_⟩
  · unfold get_tickets_by_agent
    rw [hres]
    rfl
  · intro t ht
    simp only [specSearchEval, agentSearchQuery, List.mem_filter,
      Bool.and_eq_true] at ht
    obtain ⟨-, -, hmem⟩ := ht
    intro hnew
    rw [hnew] at hmem
    simp at hmem

/-- Witness for C7 at a concrete store holding one "new" ticket assigned
to agent 42. -/
theorem tickets_by_agent_42_witness :
    (get_tickets_by_agent []
        (specSearchEval [⟨1, "new", [], 0, 42⟩]) "42").2 = [agentSearchQuery 42]
    ∧ (agentSearchQuery 42).statuses
        = ["open", "pending", "Feature Request Review Pending",
           "ENG Confirmed Bug"]
    ∧ Ticket.mk 1 "new" [] 0 42 ∉ specSearchEval [⟨1, "new", [], 0, 42⟩]
        (agentSearchQuery 42) :=
  ⟨(tickets_by_agent_42 [] [⟨1, "new", [], 0, 42⟩]).1,
   (tickets_by_agent_42 [] [⟨1, "new", [], 0, 42⟩]).2.1,
   fun hmem =>
     (tickets_by_agent_42 [] [⟨1, "new", [], 0, 42⟩]).2.2 _ hmem rfl⟩

/-- Claim C8: `post_comment` with `confirm_post = False` fails with
PermissionDenied without any store call; with `confirm_post = True` and
succeeding store calls it returns exactly the body that was passed. -/
theorem post_comment_guard (fetch : ℤ → Except String Ticket)
    (update : ℤ → String → Bool → Except String Unit)
    (ticket_id : ℤ) (comment : String) (pub : Bool) :
    post_comment fetch update ticket_id comment pub false
        = (.error .permissionDenied, [])
    ∧ (∀ t, fetch ticket_id = .ok t → update ticket_id comment pub = .ok () →
        post_comment fetch update ticket_id comment pub true
          = (.ok comment, [.fetchTicket ticket_id, .updateTicket ticket_id])) := by
  constructor
  · rfl
  · intro t hf hu
    unfold post_comment
    simp only [hf, hu, Bool.not_true, Bool.false_eq_true, if_false]

/-- Witness for C8 with a concrete always-succeeding store. -/
theorem post_comment_guard_witness :
    post_comment (fun _ => .ok ⟨1, "open", [], 0, 0⟩) (fun _ _ _ => .ok ())
        1 "hi" true false = (.error .permissionDenied, [])
    ∧ post_comment (fun _ => .ok ⟨1, "open", [], 0, 0⟩) (fun _ _ _ => .ok ())
        1 "hi" true true = (.ok "hi", [.fetchTicket 1, .updateTicket 1]) :=
  ⟨(post_comment_guard (fun _ => .ok ⟨1, "open", [], 0, 0⟩)
      (fun _ _ _ => .ok ()) 1 "hi" true).1,
   (post_comment_guard (fun _ => .ok ⟨1, "open", [], 0, 0⟩)
      (fun _ _ _ => .ok ()) 1 "hi" true).2 ⟨1, "open", [], 0, 0⟩ rfl rfl⟩

/-- Claim C9: a missing or malformed directory resource yields the empty
mapping without failing construction; afterwards every name lookup (any
non-digit identifier with a first token) fails with NotFound, while
digit-string identifiers still resolve normally. -/
theorem load_fallback (err : String) :
    load_name_to_ids_map (.error err) = []
    ∧ (∀ ident tok, pyIsDigit ident = false → pyFirstToken ident = some tok →
        resolveAgentIds (load_name_to_ids_map (.error err)) ident
          = .error (.notFound ident))
    ∧ (∀ ident, pyIsDigit ident = true →
        resolveAgentIds (load_name_to_ids_map (.error err)) ident
          = .ok [(digitsToNat ident : ℤ)]) := by
  refine ⟨rfl, ?_, ?_⟩
  · intro ident tok hd htok
    unfold resolveAgentIds
    rw [if_neg (by simp [hd])]
    simp only [load_name_to_ids_map, dictGet, htok, matchingAgentIds]
  · intro ident hd
    exact resolveAgentIds_digit _ ident hd

/-- Witness for C9 at a concrete failed resource. -/
theorem load_fallback_witness :
    load_name_to_ids_map (.error "file not found") = []
    ∧ resolveAgentIds (load_name_to_ids_map (.error "file not found")) "Alice"
        = .error (.notFound "Alice")
    ∧ resolveAgentIds (load_name_to_ids_map (.error "file not found")) "42"
        = .ok [(digitsToNat "42" : ℤ)] :=
  ⟨(load_fallback "file not found").1,
   (load_fallback "file not found").2.1 "Alice" "Alice" (by decide) (by decide),
   (load_fallback "file not found").2.2 "42" (by decide)⟩

theorem whitespace_not_digit {c : Char} (h : c.isWhitespace = true) :
    c.isDigit = false := by
  simp only [Char.isWhitespace, Bool.or_eq_true, decide_eq_true_eq] at h
  rcases h with ((h | h) | h) | h
  all_goals rw [h]; decide

theorem pyIsDigit_of_whitespace {s : String}
    (h : ∀ c ∈ s.data, c.isWhitespace = true) : pyIsDigit s = false := by
  unfold pyIsDigit
  cases hd : s.data with
  | nil => simp [hd]
  | cons c cs =>
    have hc := h c (hd ▸ List.mem_cons_self c cs)
    simp [hd, whitespace_not_digit hc]

theorem pyFirstToken_of_whitespace {s : String}
    (h : ∀ c ∈ s.data, c.isWhitespace = true) : pyFirstToken s = none := by
  unfold pyFirstToken
  rw [List.dropWhile_eq_nil_iff.mpr h]

/-- Claim C10: an identifier that is empty or all whitespace (and not a
full-name key) makes `get_tickets_by_agent` fail with the wrapped
IndexError from `agent_identifier.split()[0]` — a different error from
the NotFound of the empty first-name match — and no search is issued. -/
theorem whitespace_identifier_error (table : List (String × ℤ))
    (search : SearchQuery → List Ticket) (ident : String)
    (hws : ∀ c ∈ ident.data, c.isWhitespace = true)
    (hlk : dictGet table ident = none) :
    (get_tickets_by_agent table search ident).1
        = .error (.failedGetTickets ident .indexError)
    ∧ (get_tickets_by_agent table search ident).2 = []
    ∧ (∀ s, AgentError.indexError ≠ AgentError.notFound s) := by
  have hres : resolveAgentIds table ident = .error .indexError := by
    unfold resolveAgentIds
    rw [if_neg (by simp [pyIsDigit_of_whitespace hws])]
    simp only [hlk, pyFirstToken_of_whitespace hws]
  refine ⟨?_, ?_, fun s h => AgentError.noConfusion h⟩
  · unfold get_tickets_by_agent
    rw [hres]
  · unfold get_tickets_by_agent
    rw [hres]

/-- Witness for C10 at the single-space identifier and empty table. -/
theorem whitespace_identifier_error_witness :
    (get_tickets_by_agent [] (fun _ => []) " ").1
        = .error (.failedGetTickets " " .indexError)
    ∧ (get_tickets_by_agent [] (fun _ => []) " ").2 = []
    ∧ AgentError.indexError ≠ AgentError.notFound " " :=
  ⟨(whitespace_identifier_error [] (fun _ => []) " " (by decide) rfl).1,
   (whitespace_identifier_error [] (fun _ => []) " " (by decide) rfl).2.1,
   (whitespace_identifier_error [] (fun _ => []) " " (by decide) rfl).2.2 " "⟩

end Zendesk
